import Mathlib

/-
Formal model of the cost-benefit calculation engine of app.py
(the function run_cba, lines 117 to 204, together with the input state it
reads).  Money amounts, rates and traffic volumes are modelled as rationals;
the analysis horizon is a natural number.  Python division, which raises
ZeroDivisionError when the divisor is zero, is modelled by pydiv returning
an Except value; the whole engine therefore lives in the Except monad, and
an error value models an uncaught Python exception propagating out of
run_cba.
-/

/--
Exception kinds relevant to the engine.  zeroDivision models a Python
ZeroDivisionError.  invalidParameter models the clearly labelled
InvalidParameter condition that the specification asks for on invalid
input; the code of run_cba never produces it, it is present in the
vocabulary so that claims about it can be stated.  valueError models any
exception raised inside the external IRR root finder (numpy_financial.irr),
which run_cba catches with a bare except clause.
-/
inductive PyErr where
  | zeroDivision : PyErr
  | invalidParameter : PyErr
  | valueError : PyErr
deriving DecidableEq, Repr

/--
The input state read by run_cba: the widget values of the three input tabs
of app.py (discount rate already divided by 100, truck share already
divided by 100, capital cost already multiplied by one million, exactly as
the widget layer does before run_cba reads them).
-/
structure Inputs where
  horizon : ℕ
  discount_rate : ℚ
  vot_auto : ℚ
  vot_truck : ℚ
  voc_auto : ℚ
  voc_truck : ℚ
  avg_acc_cost : ℚ
  emission_cost_per_mile : ℚ
  cost_construct : ℚ
  cost_maint_base : ℚ
  cost_maint_build : ℚ
  truck_pct : ℚ
  base_adt : ℚ
  base_speed : ℚ
  base_length : ℚ
  base_acc_rate : ℚ
  build_adt : ℚ
  build_speed : ℚ
  build_length : ℚ
  build_acc_rate : ℚ
deriving DecidableEq, Repr

/-- Python division: raises ZeroDivisionError when the divisor is zero. -/
def pydiv (a b : ℚ) : Except PyErr ℚ :=
  if b = 0 then Except.error PyErr.zeroDivision else Except.ok (a / b)

/-- app.py line 119: avg_vot = (vot_truck * truck_pct) + (vot_auto * (1 - truck_pct)). -/
def avg_vot (i : Inputs) : ℚ :=
  i.vot_truck * i.truck_pct + i.vot_auto * (1 - i.truck_pct)

/-- app.py line 120: avg_voc = (voc_truck * truck_pct) + (voc_auto * (1 - truck_pct)). -/
def avg_voc (i : Inputs) : ℚ :=
  i.voc_truck * i.truck_pct + i.voc_auto * (1 - i.truck_pct)

/-- app.py line 124: daily_vol_avg = (base_adt + build_adt) / 2. -/
def daily_vol_avg (i : Inputs) : ℚ := (i.base_adt + i.build_adt) / 2

/-- app.py line 127: vmt_base_annual = base_adt * 365 * base_length. -/
def vmt_base_annual (i : Inputs) : ℚ := i.base_adt * 365 * i.base_length

/-- app.py line 128: vmt_build_annual = build_adt * 365 * build_length. -/
def vmt_build_annual (i : Inputs) : ℚ := i.build_adt * 365 * i.build_length

/-- app.py line 132: time_cost_base = (base_length / base_speed) * avg_vot. -/
def time_cost_base (i : Inputs) : Except PyErr ℚ :=
  (pydiv i.base_length i.base_speed).bind fun q => Except.ok (q * avg_vot i)

/-- app.py line 133: time_cost_build = (build_length / build_speed) * avg_vot. -/
def time_cost_build (i : Inputs) : Except PyErr ℚ :=
  (pydiv i.build_length i.build_speed).bind fun q => Except.ok (q * avg_vot i)

/-- app.py line 134: ben_time_annual = (time_cost_base - time_cost_build) * daily_vol_avg * 365. -/
def ben_time_annual (i : Inputs) : Except PyErr ℚ :=
  (time_cost_base i).bind fun a =>
    (time_cost_build i).bind fun b =>
      Except.ok ((a - b) * daily_vol_avg i * 365)

/-- app.py lines 137 to 139: ben_voc_annual = (voc_cost_base - voc_cost_build) * daily_vol_avg * 365. -/
def ben_voc_annual (i : Inputs) : ℚ :=
  (i.base_length * avg_voc i - i.build_length * avg_voc i) * daily_vol_avg i * 365

/-- app.py line 142: crashes_base = (vmt_base_annual / 1000000) * base_acc_rate. -/
def crashes_base (i : Inputs) : ℚ := vmt_base_annual i / 1000000 * i.base_acc_rate

/-- app.py line 143: crashes_build = (vmt_build_annual / 1000000) * build_acc_rate. -/
def crashes_build (i : Inputs) : ℚ := vmt_build_annual i / 1000000 * i.build_acc_rate

/-- app.py line 144: ben_safety_annual = (crashes_base - crashes_build) * avg_acc_cost. -/
def ben_safety_annual (i : Inputs) : ℚ :=
  (crashes_base i - crashes_build i) * i.avg_acc_cost

/-- app.py line 147: ben_emission_annual = (vmt_base_annual - vmt_build_annual) * emission_cost_per_mile. -/
def ben_emission_annual (i : Inputs) : ℚ :=
  (vmt_base_annual i - vmt_build_annual i) * i.emission_cost_per_mile

/-- app.py line 150: cost_maint_net_annual = cost_maint_build - cost_maint_base. -/
def cost_maint_net_annual (i : Inputs) : ℚ := i.cost_maint_build - i.cost_maint_base

/-- app.py line 163: df_factor = 1 / ((1 + discount_rate) ** t). -/
def df_factor (dr : ℚ) (t : ℕ) : Except PyErr ℚ := pydiv 1 ((1 + dr) ^ t)

/-- The results_breakdown dictionary of app.py lines 155 to 158
(keys Time, VOC, Safety, Emissions, Capital and the O and M key). -/
structure Breakdown where
  time : ℚ
  voc : ℚ
  safety : ℚ
  emissions : ℚ
  capital : ℚ
  om : ℚ
deriving DecidableEq, Repr

/-- The initial breakdown dictionary: every category at 0. -/
def Breakdown.init : Breakdown := ⟨0, 0, 0, 0, 0, 0⟩

/--
One iteration of the loop of app.py lines 162 to 180, acting on the pair
of the breakdown dictionary and the flow_net list.  The discount factor is
computed before the branch on t, exactly as in the source; year 0 books the
capital cost and appends minus the capital cost to flow_net; the operating
years accumulate present values per category and append the net flow
yr_ben - yr_cost.
-/
def cba_step (i : Inputs) (bt bv bs be cm : ℚ) (st : Breakdown × List ℚ) (t : ℕ) :
    Except PyErr (Breakdown × List ℚ) :=
  (df_factor i.discount_rate t).bind fun df =>
    if t = 0 then
      Except.ok
        ({ st.1 with capital := st.1.capital + i.cost_construct },
          st.2 ++ [-i.cost_construct])
    else
      Except.ok
        ({ st.1 with
            time := st.1.time + bt * df
            voc := st.1.voc + bv * df
            safety := st.1.safety + bs * df
            emissions := st.1.emissions + be * df
            om := st.1.om + cm * df },
          st.2 ++ [bt + bv + bs + be - cm])

/-- The for-loop of app.py lines 162 to 180 over a list of year indices;
an error in any iteration aborts the run, as an uncaught exception would. -/
def cba_loop (i : Inputs) (bt bv bs be cm : ℚ) :
    List ℕ → Breakdown × List ℚ → Except PyErr (Breakdown × List ℚ)
  | [], st => Except.ok st
  | t :: ts, st => (cba_step i bt bv bs be cm st t).bind (cba_loop i bt bv bs be cm ts)

/-- The payback loop of app.py lines 196 to 202: running cumulative sum,
first index at which it is nonnegative; none models the string Not Reached. -/
def paybackAux : List ℚ → ℚ → ℕ → Option ℕ
  | [], _, _ => none
  | f :: rest, cum, idx =>
      if 0 ≤ cum + f then some idx else paybackAux rest (cum + f) (idx + 1)

/-- Payback of a net cash flow list, starting from cumulative 0 at index 0. -/
def payback (fl : List ℚ) : Option ℕ := paybackAux fl 0 0

/--
The value bundle produced by run_cba: the breakdown dictionary, the
flow_net list, and the indicators of app.py lines 182 to 204.
total_pv_ben and total_pv_cost are the locals of lines 183 and 184.
The irr field is a plain rational: the source has no representation for an
unavailable IRR.
-/
structure Output where
  results_breakdown : Breakdown
  flow_net : List ℚ
  total_pv_ben : ℚ
  total_pv_cost : ℚ
  npv : ℚ
  bcr : ℚ
  irr : ℚ
  payback : Option ℕ
deriving DecidableEq, Repr

/--
app.py lines 182 to 204: the indicator block.  irrFind models the external
root finder numpy_financial.irr applied to flow_net: an ok value is a
result the library returned, an error is an exception, which the bare
except clause of line 192 turns into the literal 0.
-/
def indicators (irrFind : List ℚ → Except PyErr ℚ) (st : Breakdown × List ℚ) : Output :=
  let bd := st.1
  let flow_net := st.2
  let total_pv_ben := bd.time + bd.voc + bd.safety + bd.emissions
  let total_pv_cost := bd.capital + bd.om
  { results_breakdown := bd
    flow_net := flow_net
    total_pv_ben := total_pv_ben
    total_pv_cost := total_pv_cost
    npv := total_pv_ben - total_pv_cost
    bcr := if total_pv_cost ≠ 0 then total_pv_ben / total_pv_cost else 0
    irr := match irrFind flow_net with
      | Except.ok v => v
      | Except.error _ => 0
    payback := payback flow_net }

/--
app.py lines 117 to 204: the full engine.  The annual benefit streams are
computed first (the travel time stream performs the divisions by the two
speeds), then the loop over years 0 to horizon builds the breakdown and
flow_net, then the indicator block produces the result bundle.
-/
def run_cba (irrFind : List ℚ → Except PyErr ℚ) (i : Inputs) : Except PyErr Output :=
  (ben_time_annual i).bind fun bt =>
    (cba_loop i bt (ben_voc_annual i) (ben_safety_annual i) (ben_emission_annual i)
        (cost_maint_net_annual i) (List.range (i.horizon + 1)) (Breakdown.init, [])).bind
      fun st => Except.ok (indicators irrFind st)

/-- Decidable equality of fallible results, for concrete evaluations. -/
instance {e a : Type} [DecidableEq e] [DecidableEq a] : DecidableEq (Except e a) := fun x y =>
  match x, y with
  | Except.ok u, Except.ok v =>
      if h : u = v then isTrue (by rw [h]) else isFalse (fun hh => h (Except.ok.inj hh))
  | Except.error u, Except.error v =>
      if h : u = v then isTrue (by rw [h]) else isFalse (fun hh => h (Except.error.inj hh))
  | Except.ok _, Except.error _ => isFalse (fun hh => Except.noConfusion hh)
  | Except.error _, Except.ok _ => isFalse (fun hh => Except.noConfusion hh)

/-- A root finder that always converges, to the value 0. -/
def irrF0 : List ℚ → Except PyErr ℚ := fun _ => Except.ok 0

/-- A root finder that always raises, modelling a numpy_financial.irr failure. -/
def irrFail : List ℚ → Except PyErr ℚ := fun _ => Except.error PyErr.valueError

/--
Concrete input realising worked scenario B of the specification:
discount rate 0, horizon 3, capital cost 40, and a constant operating-year
net flow of 50 (obtained here through a negative maintenance delta, with
all four benefit streams at 0 because every monetisation rate is 0).
-/
def inputB : Inputs :=
  { horizon := 3, discount_rate := 0,
    vot_auto := 0, vot_truck := 0, voc_auto := 0, voc_truck := 0,
    avg_acc_cost := 0, emission_cost_per_mile := 0,
    cost_construct := 40, cost_maint_base := 50, cost_maint_build := 0,
    truck_pct := 0,
    base_adt := 0, base_speed := 1, base_length := 1, base_acc_rate := 0,
    build_adt := 0, build_speed := 1, build_length := 1, build_acc_rate := 0 }

/-- The engine output on inputB. -/
def outB : Output :=
  { results_breakdown := { time := 0, voc := 0, safety := 0, emissions := 0, capital := 40, om := -150 },
    flow_net := [-40, 50, 50, 50],
    total_pv_ben := 0, total_pv_cost := -110, npv := 110, bcr := 0, irr := 0,
    payback := some 1 }

/-- inputB with a zero analysis horizon. -/
def inputH0 : Inputs := { inputB with horizon := 0 }

/-- The engine output on inputH0. -/
def outH0 : Output :=
  { results_breakdown := { time := 0, voc := 0, safety := 0, emissions := 0, capital := 40, om := 0 },
    flow_net := [-40],
    total_pv_ben := 0, total_pv_cost := 40, npv := -40, bcr := 0, irr := 0,
    payback := none }

/-- inputB with a zero capital cost. -/
def inputZ : Inputs := { inputB with cost_construct := 0 }

/-- The engine output on inputZ. -/
def outZ : Output :=
  { results_breakdown := { time := 0, voc := 0, safety := 0, emissions := 0, capital := 0, om := -150 },
    flow_net := [0, 50, 50, 50],
    total_pv_ben := 0, total_pv_cost := -150, npv := 150, bcr := 0, irr := 0,
    payback := some 0 }

/-- inputB with a zero base free-flow speed: violates the data-model invariants. -/
def iBad : Inputs := { inputB with base_speed := 0 }

/-- inputB with discount rate exactly -1: violates the data-model invariants. -/
def iBadDR : Inputs := { inputB with discount_rate := -1 }

/-- Evaluation of the engine on inputB with a converging root finder. -/
theorem run_outB : run_cba irrF0 inputB = Except.ok outB := by
  have hr : List.range (inputB.horizon + 1) = [0, 1, 2, 3] := by decide
  norm_num [run_cba, hr, ben_time_annual, time_cost_base, time_cost_build, pydiv, avg_vot,
    avg_voc, daily_vol_avg, ben_voc_annual, crashes_base, crashes_build, ben_safety_annual,
    ben_emission_annual, vmt_base_annual, vmt_build_annual, cost_maint_net_annual, cba_loop,
    cba_step, df_factor, indicators, payback, paybackAux, Breakdown.init, Except.bind, inputB, outB, irrF0, inputB]

/-- Evaluation of the engine on inputB with a failing root finder:
the result bundle is the same, the except clause turning the failure into 0. -/
theorem run_outB_fail : run_cba irrFail inputB = Except.ok outB := by
  have hr : List.range (inputB.horizon + 1) = [0, 1, 2, 3] := by decide
  norm_num [run_cba, hr, ben_time_annual, time_cost_base, time_cost_build, pydiv, avg_vot,
    avg_voc, daily_vol_avg, ben_voc_annual, crashes_base, crashes_build, ben_safety_annual,
    ben_emission_annual, vmt_base_annual, vmt_build_annual, cost_maint_net_annual, cba_loop,
    cba_step, df_factor, indicators, payback, paybackAux, Breakdown.init, Except.bind, inputB, outB, irrFail, inputB]

/-- Evaluation of the engine on the zero-horizon input. -/
theorem run_outH0 : run_cba irrF0 inputH0 = Except.ok outH0 := by
  have hr : List.range (inputH0.horizon + 1) = [0] := by decide
  norm_num [run_cba, hr, ben_time_annual, time_cost_base, time_cost_build, pydiv, avg_vot,
    avg_voc, daily_vol_avg, ben_voc_annual, crashes_base, crashes_build, ben_safety_annual,
    ben_emission_annual, vmt_base_annual, vmt_build_annual, cost_maint_net_annual, cba_loop,
    cba_step, df_factor, indicators, payback, paybackAux, Breakdown.init, Except.bind, inputH0, outH0, irrF0, inputB]

/-- Evaluation of the engine on the zero-capital input. -/
theorem run_outZ : run_cba irrF0 inputZ = Except.ok outZ := by
  have hr : List.range (inputZ.horizon + 1) = [0, 1, 2, 3] := by decide
  norm_num [run_cba, hr, ben_time_annual, time_cost_base, time_cost_build, pydiv, avg_vot,
    avg_voc, daily_vol_avg, ben_voc_annual, crashes_base, crashes_build, ben_safety_annual,
    ben_emission_annual, vmt_base_annual, vmt_build_annual, cost_maint_net_annual, cba_loop,
    cba_step, df_factor, indicators, payback, paybackAux, Breakdown.init, Except.bind, inputZ, outZ, irrF0, inputB]

/--
Inversion for a successful engine run: the travel time stream evaluated
without fault, the year loop produced a breakdown and a flow list, and the
output is the indicator block applied to them.
-/
theorem run_cba_ok_split (irrFind : List ℚ → Except PyErr ℚ) (i : Inputs) (out : Output)
    (h : run_cba irrFind i = Except.ok out) :
    ∃ bt st, ben_time_annual i = Except.ok bt ∧
      cba_loop i bt (ben_voc_annual i) (ben_safety_annual i) (ben_emission_annual i)
        (cost_maint_net_annual i) (List.range (i.horizon + 1)) (Breakdown.init, []) =
          Except.ok st ∧
      out = indicators irrFind st := by
  unfold run_cba at h
  cases hbt : ben_time_annual i with
  | error e => rw [hbt] at h; simp [Except.bind] at h
  | ok bt =>
    rw [hbt] at h
    simp only [Except.bind] at h
    cases hst : cba_loop i bt (ben_voc_annual i) (ben_safety_annual i) (ben_emission_annual i)
        (cost_maint_net_annual i) (List.range (i.horizon + 1)) (Breakdown.init, []) with
    | error e => rw [hst] at h; simp at h
    | ok st =>
      rw [hst] at h
      simp only [Except.ok.injEq] at h
      exact ⟨bt, st, rfl, hst, h.symm⟩

/-- A successful loop step appends exactly one net flow value. -/
theorem cba_step_flow (i : Inputs) (bt bv bs be cm : ℚ) (st st1 : Breakdown × List ℚ) (t : ℕ)
    (h : cba_step i bt bv bs be cm st t = Except.ok st1) :
    ∃ x, st1.2 = st.2 ++ [x] := by
  unfold cba_step at h
  cases hdf : df_factor i.discount_rate t with
  | error e => rw [hdf] at h; simp [Except.bind] at h
  | ok df =>
    rw [hdf] at h
    simp only [Except.bind] at h
    by_cases ht : t = 0
    · rw [if_pos ht] at h
      simp only [Except.ok.injEq] at h
      exact ⟨-i.cost_construct, by rw [← h]⟩
    · rw [if_neg ht] at h
      simp only [Except.ok.injEq] at h
      exact ⟨bt + bv + bs + be - cm, by rw [← h]⟩

/-- A successful run of the year loop only ever appends to the flow list. -/
theorem cba_loop_flow_extends (ts : List ℕ) (i : Inputs) (bt bv bs be cm : ℚ) :
    ∀ st st1, cba_loop i bt bv bs be cm ts st = Except.ok st1 →
      ∃ suf, st1.2 = st.2 ++ suf := by
  induction ts with
  | nil =>
    intro st st1 h
    simp only [cba_loop, Except.ok.injEq] at h
    exact ⟨[], by rw [← h, List.append_nil]⟩
  | cons t ts ih =>
    intro st st1 h
    simp only [cba_loop] at h
    cases hstep : cba_step i bt bv bs be cm st t with
    | error e => rw [hstep] at h; simp [Except.bind] at h
    | ok st0 =>
      rw [hstep] at h
      simp only [Except.bind] at h
      obtain ⟨x, hx⟩ := cba_step_flow i bt bv bs be cm st st0 t hstep
      obtain ⟨suf, hsuf⟩ := ih st0 st1 h
      refine ⟨x :: suf, ?_⟩
      rw [hsuf, hx, List.append_assoc, List.singleton_append]

/--
Characterisation of the payback loop, failure case: it returns none exactly
when every running cumulative sum stays negative to the end of the list.
-/
theorem paybackAux_eq_none (fl : List ℚ) : ∀ (c : ℚ) (idx : ℕ),
    paybackAux fl c idx = none ↔
      ∀ t, t < fl.length → c + (fl.take (t + 1)).sum < 0 := by
  induction fl with
  | nil => intro c idx; simp [paybackAux]
  | cons f rest ih =>
    intro c idx
    by_cases h : 0 ≤ c + f
    · simp only [paybackAux, if_pos h]
      constructor
      · intro h2; simp at h2
      · intro hall
        have h0 := hall 0 (by simp)
        simp at h0
        linarith
    · simp only [paybackAux, if_neg h]
      rw [ih (c + f) (idx + 1)]
      push_neg at h
      constructor
      · intro hall t ht
        cases t with
        | zero => simpa using h
        | succ u =>
          have hu := hall u (by simp at ht; omega)
          simp only [List.take_succ_cons, List.sum_cons]
          linarith
      · intro hall t ht
        have hu := hall (t + 1) (by simp; omega)
        simp only [List.take_succ_cons, List.sum_cons] at hu
        linarith

/--
Characterisation of the payback loop, success case: it returns the first
offset at which the running cumulative sum is nonnegative.
-/
theorem paybackAux_eq_some (fl : List ℚ) : ∀ (c : ℚ) (idx j : ℕ),
    paybackAux fl c idx = some j ↔
      ∃ t, j = idx + t ∧ t < fl.length ∧ 0 ≤ c + (fl.take (t + 1)).sum ∧
        ∀ s, s < t → c + (fl.take (s + 1)).sum < 0 := by
  induction fl with
  | nil => intro c idx j; simp [paybackAux]
  | cons f rest ih =>
    intro c idx j
    by_cases h : 0 ≤ c + f
    · simp only [paybackAux, if_pos h]
      constructor
      · intro h2
        have hj : idx = j := Option.some.inj h2
        refine ⟨0, by omega, by simp, by simpa using h, ?_⟩
        intro s hs; omega
      · rintro ⟨t, hj, hlen, hge, hall⟩
        cases t with
        | zero => simp [hj]
        | succ u =>
          exfalso
          have h0 := hall 0 (Nat.succ_pos u)
          simp at h0
          linarith
    · simp only [paybackAux, if_neg h]
      rw [ih (c + f) (idx + 1) j]
      push_neg at h
      constructor
      · rintro ⟨t, hj, hlen, hge, hall⟩
        refine ⟨t + 1, by omega, by simp; omega, ?_, ?_⟩
        · simp only [List.take_succ_cons, List.sum_cons]
          linarith
        · intro s hs
          cases s with
          | zero => simpa using h
          | succ u =>
            have hu := hall u (by omega)
            simp only [List.take_succ_cons, List.sum_cons]
            linarith
      · rintro ⟨t, hj, hlen, hge, hall⟩
        cases t with
        | zero =>
          exfalso
          simp at hge
          linarith
        | succ u =>
          refine ⟨u, by omega, by simp at hlen; omega, ?_, ?_⟩
          · simp only [List.take_succ_cons, List.sum_cons] at hge
            linarith
          · intro s hs
            have hu := hall (s + 1) (by omega)
            simp only [List.take_succ_cons, List.sum_cons] at hu
            linarith

/--
C1: the claim asks that a failing IRR root finder be reported as
unavailable, distinct from 0.  The code of app.py lines 190 to 193 instead
catches the failure and silently sets irr to the literal 0: whenever the
root finder raises on the net flow series of a successful run, the reported
IRR is exactly 0.
-/
theorem irr_failure_reports_zero (irrFn : List ℚ → Except PyErr ℚ) (i : Inputs) (out : Output)
    (h : run_cba irrFn i = Except.ok out) (e : PyErr)
    (he : irrFn out.flow_net = Except.error e) : out.irr = 0 := by
  obtain ⟨bt, st, hbt, hst, hout⟩ := run_cba_ok_split irrFn i out h
  subst hout
  have he2 : irrFn st.2 = Except.error e := he
  simp only [indicators, he2]

/-- C1 witness: on inputB with a root finder that raises, the engine
reports IRR equal to 0. -/
theorem irr_failure_reports_zero_witness : outB.irr = 0 :=
  irr_failure_reports_zero irrFail inputB outB run_outB_fail PyErr.valueError rfl

/--
C2 counterexample: on the concrete invalid input iBad (base speed 0) the
engine does not fail with the labelled InvalidParameter condition the claim
asserts; it propagates the raw division fault.
-/
theorem invalid_input_not_labelled :
    run_cba irrF0 iBad = Except.error PyErr.zeroDivision ∧
      run_cba irrF0 iBad ≠ Except.error PyErr.invalidParameter := by
  have h : run_cba irrF0 iBad = Except.error PyErr.zeroDivision := by
    norm_num [run_cba, ben_time_annual, time_cost_base, pydiv, iBad, inputB, Except.bind]
  refine ⟨h, ?_⟩
  rw [h]
  simp

/--
C2 amended: the engine performs no input validation.  With a zero base
free-flow speed it propagates a raw ZeroDivisionError from the travel-time
cost computation, and with discount rate exactly -1 and at least one
operating year it propagates a raw ZeroDivisionError from the discount
factor computation; it never produces an InvalidParameter condition.
-/
theorem no_validation_raw_division_fault :
    (∀ (irrFn : List ℚ → Except PyErr ℚ) (i : Inputs), i.base_speed = 0 →
        run_cba irrFn i = Except.error PyErr.zeroDivision) ∧
      (∀ (irrFn : List ℚ → Except PyErr ℚ) (i : Inputs), i.discount_rate = -1 →
        1 ≤ i.horizon → i.base_speed ≠ 0 → i.build_speed ≠ 0 →
        run_cba irrFn i = Except.error PyErr.zeroDivision) := by
  constructor
  · intro irrFn i hb
    simp [run_cba, ben_time_annual, time_cost_base, pydiv, hb, Except.bind]
  · intro irrFn i hdr hh hbs hbb
    obtain ⟨k, hk⟩ : ∃ k, i.horizon = k + 1 := ⟨i.horizon - 1, by omega⟩
    have hbt : ben_time_annual i = Except.ok
        ((i.base_length / i.base_speed * avg_vot i - i.build_length / i.build_speed * avg_vot i) *
          daily_vol_avg i * 365) := by
      simp [ben_time_annual, time_cost_base, time_cost_build, pydiv, hbs, hbb, Except.bind]
    simp only [run_cba, hbt, Except.bind]
    rw [hk, List.range_succ_eq_map, List.range_succ_eq_map, List.map_cons]
    norm_num [cba_loop, cba_step, df_factor, pydiv, hdr, Except.bind]

/-- C2 witness for the amended claim, at the two concrete invalid inputs. -/
theorem no_validation_raw_division_fault_witness :
    run_cba irrF0 iBad = Except.error PyErr.zeroDivision ∧
      run_cba irrF0 iBadDR = Except.error PyErr.zeroDivision := by
  constructor
  · exact no_validation_raw_division_fault.1 irrF0 iBad rfl
  · exact no_validation_raw_division_fault.2 irrF0 iBadDR rfl (by decide)
      (by norm_num [iBadDR, inputB]) (by norm_num [iBadDR, inputB])

/--
C3: payback is the smallest 0-indexed year whose cumulative undiscounted
net flow is nonnegative, none (Not Reached) when no such year exists within
the horizon, and on the worked scenario B input (discount rate 0, horizon
3, capital cost 40, operating net flow 50) the engine reports payback 1.
-/
theorem payback_smallest_nonneg_cumsum :
    (∀ (fl : List ℚ) (t : ℕ), payback fl = some t ↔
        t < fl.length ∧ 0 ≤ (fl.take (t + 1)).sum ∧
          ∀ s, s < t → (fl.take (s + 1)).sum < 0) ∧
      (∀ fl : List ℚ, payback fl = none ↔
        ∀ t, t < fl.length → (fl.take (t + 1)).sum < 0) ∧
      run_cba irrF0 inputB = Except.ok outB ∧ outB.payback = some 1 := by
  refine ⟨?_, ?_, run_outB, rfl⟩
  · intro fl t
    rw [payback, paybackAux_eq_some]
    constructor
    · rintro ⟨u, hu, hlen, hge, hall⟩
      have hut : u = t := by omega
      subst hut
      exact ⟨hlen, by simpa using hge, fun s hs => by simpa using hall s hs⟩
    · rintro ⟨hlen, hge, hall⟩
      exact ⟨t, by omega, hlen, by simpa using hge, fun s hs => by simpa using hall s hs⟩
  · intro fl
    rw [payback, paybackAux_eq_none]
    constructor
    · intro hall t ht
      simpa using hall t ht
    · intro hall t ht
      simpa using hall t ht

/-- C3 witness: the first cumulative-nonnegative index of the scenario B
flow list is year 1. -/
theorem payback_smallest_nonneg_cumsum_witness :
    payback [-(40 : ℚ), 50, 50, 50] = some 1 := by
  refine (payback_smallest_nonneg_cumsum.1 [-(40 : ℚ), 50, 50, 50] 1).mpr ⟨by decide, ?_, ?_⟩
  · simp only [show ([-(40 : ℚ), 50, 50, 50].take 2) = [-(40 : ℚ), 50] from rfl,
      List.sum_cons, List.sum_nil]
    norm_num
  · intro s hs
    have hs0 : s = 0 := by omega
    subst hs0
    simp only [show ([-(40 : ℚ), 50, 50, 50].take 1) = [-(40 : ℚ)] from rfl,
      List.sum_cons, List.sum_nil]
    norm_num

/--
C4: the reported benefit-cost ratio is the quotient of the reported
discounted benefit and cost totals when the cost total is nonzero, and the
sentinel 0 when the cost total is zero; no error is raised.
-/
theorem bcr_defined_or_sentinel (irrFn : List ℚ → Except PyErr ℚ) (i : Inputs) (out : Output)
    (h : run_cba irrFn i = Except.ok out) :
    out.bcr = if out.total_pv_cost = 0 then 0 else out.total_pv_ben / out.total_pv_cost := by
  obtain ⟨bt, st, hbt, hst, hout⟩ := run_cba_ok_split irrFn i out h
  subst hout
  rcases eq_or_ne (st.1.capital + st.1.om) 0 with hc | hc <;> simp [indicators, hc]

/-- C4 witness at the concrete scenario B run. -/
theorem bcr_defined_or_sentinel_witness :
    outB.bcr = if outB.total_pv_cost = 0 then 0 else outB.total_pv_ben / outB.total_pv_cost :=
  bcr_defined_or_sentinel irrF0 inputB outB run_outB

/--
C5: with a zero horizon the cash flow sequence is the single record of
year 0 with net flow minus the capital cost, the npv equals minus the
capital cost, and payback is Not Reached exactly when the capital cost is
positive.
-/
theorem zero_horizon_flow (irrFn : List ℚ → Except PyErr ℚ) (i : Inputs) (out : Output)
    (h : run_cba irrFn i = Except.ok out) (hh : i.horizon = 0) :
    out.flow_net = [-i.cost_construct] ∧ out.npv = -i.cost_construct ∧
      (out.payback = none ↔ 0 < i.cost_construct) := by
  obtain ⟨bt, st, hbt, hst, hout⟩ := run_cba_ok_split irrFn i out h
  rw [hh] at hst
  rw [show List.range (0 + 1) = [0] from rfl] at hst
  have hstep : cba_step i bt (ben_voc_annual i) (ben_safety_annual i) (ben_emission_annual i)
      (cost_maint_net_annual i) (Breakdown.init, []) 0 =
      Except.ok ({ Breakdown.init with capital := Breakdown.init.capital + i.cost_construct },
        [-i.cost_construct]) := by
    simp [cba_step, df_factor, pydiv, Except.bind]
  simp only [cba_loop, hstep, Except.bind] at hst
  simp only [Except.ok.injEq] at hst
  subst hout
  rw [← hst]
  refine ⟨rfl, ?_, ?_⟩
  · simp [indicators, Breakdown.init]
  · simp only [indicators, payback, paybackAux, zero_add]
    constructor
    · intro hnone
      by_contra hcc
      push_neg at hcc
      rw [if_pos (by linarith : (0 : ℚ) ≤ -i.cost_construct)] at hnone
      simp at hnone
    · intro hcc
      rw [if_neg (by linarith : ¬ (0 : ℚ) ≤ -i.cost_construct)]

/-- C5 witness at the concrete zero-horizon input. -/
theorem zero_horizon_flow_witness :
    outH0.flow_net = [-inputH0.cost_construct] ∧ outH0.npv = -inputH0.cost_construct ∧
      (outH0.payback = none ↔ 0 < inputH0.cost_construct) :=
  zero_horizon_flow irrF0 inputH0 outH0 run_outH0 rfl

/--
C6: the constant annual travel time benefit equals the travel time cost
difference of the two scenarios times the truck-share-weighted value of
time, the average of the two daily volumes and 365.
-/
theorem time_benefit_formula (i : Inputs) (hbs : i.base_speed ≠ 0) (hps : i.build_speed ≠ 0) :
    ben_time_annual i = Except.ok
        ((i.base_length / i.base_speed - i.build_length / i.build_speed) *
          avg_vot i * daily_vol_avg i * 365) ∧
      avg_vot i = i.vot_truck * i.truck_pct + i.vot_auto * (1 - i.truck_pct) ∧
      daily_vol_avg i = (i.base_adt + i.build_adt) / 2 := by
  refine ⟨?_, rfl, rfl⟩
  simp only [ben_time_annual, time_cost_base, time_cost_build, pydiv, if_neg hbs, if_neg hps,
    Except.bind, Except.ok.injEq]
  ring

/-- C6 witness at the concrete scenario B input. -/
theorem time_benefit_formula_witness :
    ben_time_annual inputB = Except.ok
        ((inputB.base_length / inputB.base_speed - inputB.build_length / inputB.build_speed) *
          avg_vot inputB * daily_vol_avg inputB * 365) ∧
      avg_vot inputB = inputB.vot_truck * inputB.truck_pct +
        inputB.vot_auto * (1 - inputB.truck_pct) ∧
      daily_vol_avg inputB = (inputB.base_adt + inputB.build_adt) / 2 :=
  time_benefit_formula inputB (by norm_num [inputB]) (by norm_num [inputB])

/--
C7: annual vehicle miles travelled per scenario equal average daily
traffic times 365 times segment length, and the constant annual safety
benefit equals the crash difference per million miles times the average
crash cost.
-/
theorem vmt_and_safety_formula (i : Inputs) :
    vmt_base_annual i = i.base_adt * 365 * i.base_length ∧
      vmt_build_annual i = i.build_adt * 365 * i.build_length ∧
      ben_safety_annual i =
        (vmt_base_annual i / 1000000 * i.base_acc_rate -
          vmt_build_annual i / 1000000 * i.build_acc_rate) * i.avg_acc_cost :=
  ⟨rfl, rfl, rfl⟩

/--
C8: for every year the discount factor applied by the loop equals
(1 + discountRate) to the power minus t, it is strictly decreasing in t
when the discount rate is positive, and is constantly 1 when the discount
rate is 0.
-/
theorem discount_factor_law :
    (∀ dr : ℚ, dr ≠ -1 → ∀ t : ℕ, df_factor dr t = Except.ok ((1 + dr) ^ (-(t : ℤ)))) ∧
      (∀ dr : ℚ, 0 < dr → ∀ s t : ℕ, s < t → ∀ a b, df_factor dr s = Except.ok a →
        df_factor dr t = Except.ok b → b < a) ∧
      (∀ t : ℕ, df_factor 0 t = Except.ok 1) := by
  refine ⟨?_, ?_, ?_⟩
  · intro dr hdr t
    have h1 : (1 : ℚ) + dr ≠ 0 := fun hz => hdr (by linarith)
    have h2 : ((1 : ℚ) + dr) ^ t ≠ 0 := pow_ne_zero _ h1
    simp only [df_factor, pydiv, if_neg h2]
    rw [zpow_neg, zpow_natCast, one_div]
  · intro dr hdr s t hst a b ha hb
    have h1 : (0 : ℚ) < 1 + dr := by linarith
    have hs0 : ((1 : ℚ) + dr) ^ s ≠ 0 := ne_of_gt (pow_pos h1 s)
    have ht0 : ((1 : ℚ) + dr) ^ t ≠ 0 := ne_of_gt (pow_pos h1 t)
    simp only [df_factor, pydiv, if_neg hs0, Except.ok.injEq] at ha
    simp only [df_factor, pydiv, if_neg ht0, Except.ok.injEq] at hb
    subst ha
    subst hb
    exact one_div_lt_one_div_of_lt (pow_pos h1 s) (pow_lt_pow_right₀ (by linarith) hst)
  · intro t
    norm_num [df_factor, pydiv]

/-- C8 witness: concrete instances of the three parts at discount rate
one tenth and at 0. -/
theorem discount_factor_law_witness :
    df_factor (1 / 10) 2 = Except.ok ((1 + 1 / 10 : ℚ) ^ (-(2 : ℤ))) ∧
      ((1 + 1 / 10 : ℚ) ^ (-(2 : ℤ)) < (1 + 1 / 10 : ℚ) ^ (-(1 : ℤ))) ∧
      df_factor 0 5 = Except.ok 1 := by
  refine ⟨discount_factor_law.1 (1 / 10) (by norm_num) 2, ?_, discount_factor_law.2.2 5⟩
  exact discount_factor_law.2.1 (1 / 10) (by norm_num) 1 2 (by norm_num)
    ((1 + 1 / 10 : ℚ) ^ (-(1 : ℤ))) ((1 + 1 / 10 : ℚ) ^ (-(2 : ℤ)))
    (discount_factor_law.1 (1 / 10) (by norm_num) 1)
    (discount_factor_law.1 (1 / 10) (by norm_num) 2)

/--
C9: the reported discounted benefit total is exactly the sum of the time,
operating cost, safety and emissions category totals, the reported cost
total is exactly capital plus the maintenance delta, and npv is exactly
their difference (exact rational equality, hence within any tolerance).
-/
theorem category_totals_decomposition (irrFn : List ℚ → Except PyErr ℚ) (i : Inputs)
    (out : Output) (h : run_cba irrFn i = Except.ok out) :
    out.total_pv_ben = out.results_breakdown.time + out.results_breakdown.voc +
        out.results_breakdown.safety + out.results_breakdown.emissions ∧
      out.total_pv_cost = out.results_breakdown.capital + out.results_breakdown.om ∧
      out.npv = out.total_pv_ben - out.total_pv_cost := by
  obtain ⟨bt, st, hbt, hst, hout⟩ := run_cba_ok_split irrFn i out h
  subst hout
  exact ⟨rfl, rfl, rfl⟩

/-- C9 witness at the concrete scenario B run. -/
theorem category_totals_decomposition_witness :
    outB.total_pv_ben = outB.results_breakdown.time + outB.results_breakdown.voc +
        outB.results_breakdown.safety + outB.results_breakdown.emissions ∧
      outB.total_pv_cost = outB.results_breakdown.capital + outB.results_breakdown.om ∧
      outB.npv = outB.total_pv_ben - outB.total_pv_cost :=
  category_totals_decomposition irrF0 inputB outB run_outB

/--
C10: whenever the capital cost is nonpositive, year 0 already has a
nonnegative cumulative net flow, so the engine reports payback 0 on every
successful run, whatever the horizon and the operating-year flows.
-/
theorem nonpos_capital_payback_zero (irrFn : List ℚ → Except PyErr ℚ) (i : Inputs) (out : Output)
    (h : run_cba irrFn i = Except.ok out) (hc : i.cost_construct ≤ 0) :
    out.payback = some 0 := by
  obtain ⟨bt, st, hbt, hst, hout⟩ := run_cba_ok_split irrFn i out h
  rw [List.range_succ_eq_map] at hst
  simp only [cba_loop] at hst
  have hstep : cba_step i bt (ben_voc_annual i) (ben_safety_annual i) (ben_emission_annual i)
      (cost_maint_net_annual i) (Breakdown.init, []) 0 =
      Except.ok ({ Breakdown.init with capital := Breakdown.init.capital + i.cost_construct },
        [-i.cost_construct]) := by
    simp [cba_step, df_factor, pydiv, Except.bind]
  rw [hstep] at hst
  simp only [Except.bind] at hst
  obtain ⟨suf, hsuf⟩ := cba_loop_flow_extends _ i bt (ben_voc_annual i) (ben_safety_annual i)
    (ben_emission_annual i) (cost_maint_net_annual i) _ st hst
  subst hout
  show payback st.2 = some 0
  rw [hsuf, List.singleton_append]
  simp only [payback, paybackAux, zero_add]
  rw [if_pos (by linarith : (0 : ℚ) ≤ -i.cost_construct)]

/-- C10 witness at the concrete zero-capital input. -/
theorem nonpos_capital_payback_zero_witness : outZ.payback = some 0 :=
  nonpos_capital_payback_zero irrF0 inputZ outZ run_outZ (le_of_eq rfl)
